import Mathlib

/-!
Verification of the NERO voice-assistant orchestration layer
(`nero_assistant.py`, `modules/stt_fraco.py`, `modules/agent_handler.py`).

The Python code is shallowly embedded: the state machine and the pure parts
are translated directly; the effectful orchestrator methods are modelled as
functions of an explicit environment describing what the external
collaborators (microphone, transcription service, reasoning agent, TTS)
do during the turn, returning the resulting state-machine state together
with observable traces (states entered, collaborator calls made, events
enqueued).
-/

namespace Nero

/-! Session state machine (`MaquinaEstadosNero`, nero_assistant.py 43-91) -/

/-- The keys of the `ESTADOS` dict: the five defined session states. -/
def ESTADOS : List String :=
  ["DESCANSO", "AGUARDANDO", "GRAVANDO", "PROCESSANDO", "RESPONDENDO"]

/-- The mutable state of a `MaquinaEstadosNero` instance: the single field
`estado_atual`, initialised to `"DESCANSO"`. -/
structure MaquinaEstadosNero where
  estado_atual : String
deriving DecidableEq, Repr

/-- Embedding of `MaquinaEstadosNero.transitar` (nero_assistant.py 64-86): rejects targets
outside `ESTADOS` with `False` and no mutation; a self-transition returns
`True` without mutation; otherwise updates `estado_atual` and returns `True`.
Returns the boolean result together with the post-call machine. -/
def transitar (m : MaquinaEstadosNero) (novo_estado : String) :
    Bool × MaquinaEstadosNero :=
  if ¬ ESTADOS.contains novo_estado then
    (false, m)
  else if novo_estado = m.estado_atual then
    (true, m)
  else
    (true, { estado_atual := novo_estado })

/-- Run `transitar` over a whole sequence of targets, collecting each call's
boolean result and the final machine. -/
def transitar_seq (m : MaquinaEstadosNero) : List String →
    List Bool × MaquinaEstadosNero
  | [] => ([], m)
  | t :: ts =>
    let r := transitar m t
    let rest := transitar_seq r.2 ts
    (r.1 :: rest.1, rest.2)

theorem transitar_valid (m : MaquinaEstadosNero) (alvo : String)
    (h : ESTADOS.contains alvo = true) :
    transitar m alvo = (true, ⟨alvo⟩) := by
  unfold transitar
  rw [h]
  by_cases he : alvo = m.estado_atual
  · cases m with
    | mk e =>
      simp only [not_true, if_false, if_pos he]
      subst he
      rfl
  · simp [he]

theorem transitar_invalid (m : MaquinaEstadosNero) (alvo : String)
    (h : ESTADOS.contains alvo = false) :
    transitar m alvo = (false, m) := by
  unfold transitar
  rw [h]
  simp

/-- Claim C2: for every current state and every target string outside the
defined state set, `transitar` returns `False` and leaves the observable
state unchanged. -/
theorem C2_unknown_target_rejected (m : MaquinaEstadosNero) (alvo : String)
    (h : ESTADOS.contains alvo = false) :
    (transitar m alvo).1 = false ∧ (transitar m alvo).2 = m := by
  rw [transitar_invalid m alvo h]
  exact ⟨rfl, rfl⟩

/-- Witness for C2 at the concrete input of the spec: target `"UNKNOWN"`
from state `"DESCANSO"`. -/
theorem C2_unknown_target_rejected_witness :
    (transitar ⟨"DESCANSO"⟩ "UNKNOWN").1 = false ∧
      (transitar ⟨"DESCANSO"⟩ "UNKNOWN").2 = (⟨"DESCANSO"⟩ : MaquinaEstadosNero) :=
  C2_unknown_target_rejected ⟨"DESCANSO"⟩ "UNKNOWN" (by decide)

/-- Claim C3: for every sequence of targets drawn from the defined state set,
every call returns `True` and the final observable state is the last target
passed (the current state when the sequence is empty); instantiating the
sequence with `[S, S]` gives the idempotent self-transition case. -/
theorem C3_valid_sequence_succeeds (m : MaquinaEstadosNero)
    (ts : List String) (h : ∀ t ∈ ts, ESTADOS.contains t = true) :
    (transitar_seq m ts).1.all (fun b => b) = true ∧
      (transitar_seq m ts).2.estado_atual = ts.getLastD m.estado_atual := by
  induction ts generalizing m with
  | nil => exact ⟨rfl, rfl⟩
  | cons t ts ih =>
    have ht : ESTADOS.contains t = true := h t (List.mem_cons_self t ts)
    have hts : ∀ u ∈ ts, ESTADOS.contains u = true :=
      fun u hu => h u (List.mem_cons_of_mem t hu)
    have step := transitar_valid m t ht
    have ihm := ih (⟨t⟩ : MaquinaEstadosNero) hts
    constructor
    · show ((transitar_seq m (t :: ts)).1.all (fun b => b)) = true
      unfold transitar_seq
      rw [step]
      simpa using ihm.1
    · show (transitar_seq m (t :: ts)).2.estado_atual = (t :: ts).getLastD m.estado_atual
      unfold transitar_seq
      rw [step, List.getLastD_cons]
      exact ihm.2

/-- Witness for C3: the idempotent pair `transitar("PROCESSANDO")` twice from
`"DESCANSO"` — both calls succeed and the final state is `"PROCESSANDO"`. -/
theorem C3_valid_sequence_succeeds_witness :
    (transitar_seq ⟨"DESCANSO"⟩ ["PROCESSANDO", "PROCESSANDO"]).1.all (fun b => b) = true ∧
      (transitar_seq ⟨"DESCANSO"⟩ ["PROCESSANDO", "PROCESSANDO"]).2.estado_atual =
        (["PROCESSANDO", "PROCESSANDO"] : List String).getLastD "DESCANSO" :=
  C3_valid_sequence_succeeds ⟨"DESCANSO"⟩ ["PROCESSANDO", "PROCESSANDO"] (by decide)

/-! Orchestrator turn (`NeroAssistant.run` loop body, nero_assistant.py 315-341)

One iteration of the main loop after the wake word has been detected
(`estado_descanso` returned `True`). The external collaborators are
abstracted into a `TurnEnv`: the transcript produced by the recording and
transcription step, the behaviour of `AgentHandler.processar_prompt`
(returning a result dict or raising), and whether the TTS completion
callback sets the `recording_complete` event within the 30 s
`asyncio.wait_for` deadline of `estado_processando`. -/

/-- Perform one `transitar` call and append the machine's observable state
after the call to a trace of visited states (the orchestrator ignores the
boolean result of its own `transitar` calls). -/
def trCall (p : MaquinaEstadosNero × List String) (alvo : String) :
    MaquinaEstadosNero × List String :=
  let r := transitar p.1 alvo
  (r.2, p.2 ++ [r.2.estado_atual])

/-- The result dict of `AgentHandler.processar_prompt` as read by the
orchestrator, which only inspects the `"sucesso"` key (the response text is
consumed by the TTS callback, not by `estado_processando`). -/
structure AgentResult where
  resultado : String
  sucesso : Bool
deriving DecidableEq, Repr

/-- Behaviour of the `await agent.processar_prompt(transcricao)` call during
one turn: it either returns a result dict or raises an exception. -/
inductive DispatchBehavior
  | returns (r : AgentResult)
  | raises
deriving DecidableEq, Repr

/-- The classified outcome of `estado_processando` (nero_assistant.py
253-290), one value per return/except path of the method. Each constructor
corresponds to a distinct log line, so distinct constructors are distinct
reports. -/
inductive ProcResult
  | success        -- dispatch succeeded and the completion signal arrived
  | emptyPrompt    -- `if not transcricao` guard (unreachable from `run`)
  | agentFailed    -- `resultado["sucesso"]` was false ("Agent processing failed")
  | ttsTimeout     -- `asyncio.TimeoutError` after 30 s ("TTS response timeout")
  | dispatchError  -- any other exception ("Processing failed")
deriving DecidableEq, Repr

/-- Output of the `estado_processando` model: the boolean return value, the
classified outcome, how many times `agent.processar_prompt` was invoked, the
state machine after the method, and the states entered during it. -/
structure ProcOut where
  ok : Bool
  outcome : ProcResult
  dispatchCalls : Nat
  state : MaquinaEstadosNero
  visited : List String
deriving DecidableEq, Repr

/-- Embedding of `NeroAssistant.estado_processando` (nero_assistant.py 253-290):
transition to `"PROCESSANDO"`, guard against an empty transcript, dispatch
to the agent, and on a successful dispatch wait for the completion signal
with a 30 s timeout. The `try/except` block catches both `TimeoutError` and
any other exception, so the method always returns a boolean. -/
def estado_processando (m : MaquinaEstadosNero) (transcricao : String)
    (dispatch : DispatchBehavior) (signalArrives : Bool) : ProcOut :=
  let s := trCall (m, []) "PROCESSANDO"
  if transcricao = "" then
    ⟨false, ProcResult.emptyPrompt, 0, s.1, s.2⟩
  else
    match dispatch with
    | DispatchBehavior.raises =>
        ⟨false, ProcResult.dispatchError, 1, s.1, s.2⟩
    | DispatchBehavior.returns r =>
        if r.sucesso then
          if signalArrives then
            ⟨true, ProcResult.success, 1, s.1, s.2⟩
          else
            ⟨false, ProcResult.ttsTimeout, 1, s.1, s.2⟩
        else
          ⟨false, ProcResult.agentFailed, 1, s.1, s.2⟩

/-- Embedding of `NeroAssistant.estado_respondendo` (nero_assistant.py 292-302):
transition to `"RESPONDENDO"`, then back to `"DESCANSO"`. -/
def estado_respondendo (m : MaquinaEstadosNero) :
    MaquinaEstadosNero × List String :=
  trCall (trCall (m, []) "RESPONDENDO") "DESCANSO"

/-- Environment of one turn: what the collaborators do. `transcricao` is the
text returned by `estado_gravando` (empty on failed/empty transcription,
per its `except` clauses). -/
structure TurnEnv where
  transcricao : String
  dispatch : DispatchBehavior
  signalArrives : Bool
deriving DecidableEq, Repr

/-- Observable result of one loop iteration of `NeroAssistant.run`. -/
structure TurnResult where
  final : MaquinaEstadosNero       -- state machine when the iteration ends
  trace : List String              -- states entered during the iteration
  dispatchCalls : Nat              -- calls made to `agent.processar_prompt`
  outcome : Option ProcResult      -- `none` when `estado_processando` never ran
  continues : Bool                 -- iteration ended normally, loop proceeds
deriving DecidableEq, Repr

/-- One iteration of the `while self.running` body of `NeroAssistant.run`
(nero_assistant.py 315-341) after `estado_descanso` returned `True`:
`estado_aguardando` (transition to `"AGUARDANDO"`), `estado_gravando`
(transition to `"GRAVANDO"`, yielding `env.transcricao`), the empty-transcript
guard that returns straight to `"DESCANSO"`, otherwise
`recording_complete.clear()` and `estado_processando`; on its failure a
direct transition to `"DESCANSO"`, on success `estado_respondendo`. All
exceptions inside the phases are caught inside them, so the iteration always
runs to completion (`continues = true`). -/
def turn (m0 : MaquinaEstadosNero) (env : TurnEnv) : TurnResult :=
  let s1 := trCall (m0, []) "AGUARDANDO"
  let s2 := trCall s1 "GRAVANDO"
  if env.transcricao = "" then
    let s3 := trCall s2 "DESCANSO"
    ⟨s3.1, s3.2, 0, none, true⟩
  else
    let p := estado_processando s2.1 env.transcricao env.dispatch env.signalArrives
    if p.ok then
      let r := estado_respondendo p.state
      ⟨r.1, s2.2 ++ p.visited ++ r.2, p.dispatchCalls, some p.outcome, true⟩
    else
      let d := trCall (p.state, []) "DESCANSO"
      ⟨d.1, s2.2 ++ p.visited ++ d.2, p.dispatchCalls, some p.outcome, true⟩

theorem trCall_valid (m : MaquinaEstadosNero) (tr : List String)
    (alvo : String) (h : ESTADOS.contains alvo = true) :
    trCall (m, tr) alvo = (⟨alvo⟩, tr ++ [alvo]) := by
  unfold trCall
  rw [transitar_valid m alvo h]

@[simp] theorem trCall_descanso (m : MaquinaEstadosNero) (tr : List String) :
    trCall (m, tr) "DESCANSO" = (⟨"DESCANSO"⟩, tr ++ ["DESCANSO"]) := by
  apply trCall_valid
  decide

@[simp] theorem trCall_aguardando (m : MaquinaEstadosNero) (tr : List String) :
    trCall (m, tr) "AGUARDANDO" = (⟨"AGUARDANDO"⟩, tr ++ ["AGUARDANDO"]) := by
  apply trCall_valid
  decide

@[simp] theorem trCall_gravando (m : MaquinaEstadosNero) (tr : List String) :
    trCall (m, tr) "GRAVANDO" = (⟨"GRAVANDO"⟩, tr ++ ["GRAVANDO"]) := by
  apply trCall_valid
  decide

@[simp] theorem trCall_processando (m : MaquinaEstadosNero) (tr : List String) :
    trCall (m, tr) "PROCESSANDO" = (⟨"PROCESSANDO"⟩, tr ++ ["PROCESSANDO"]) := by
  apply trCall_valid
  decide

@[simp] theorem trCall_respondendo (m : MaquinaEstadosNero) (tr : List String) :
    trCall (m, tr) "RESPONDENDO" = (⟨"RESPONDENDO"⟩, tr ++ ["RESPONDENDO"]) := by
  apply trCall_valid
  decide

/-- A turn that reaches `"PROCESSANDO"` but whose dispatch reports failure
exits Dispatching without ever entering `"RESPONDENDO"`: the claim that
every exit from Dispatching passes through Replying is false on this
concrete turn. -/
theorem C1_counterexample :
    "PROCESSANDO" ∈ (turn ⟨"DESCANSO"⟩
        ⟨"que horas sao", DispatchBehavior.returns ⟨"", false⟩, true⟩).trace ∧
      "RESPONDENDO" ∉ (turn ⟨"DESCANSO"⟩
        ⟨"que horas sao", DispatchBehavior.returns ⟨"", false⟩, true⟩).trace := by
  constructor
  · decide
  · decide

/-- Claim C1 (amended): every turn that reaches Dispatching (non-empty
transcript) ends with the state machine back in `"DESCANSO"` (Idle), and the
success exit passes through `"RESPONDENDO"` (Replying); failure, timeout and
exception exits transition directly from Dispatching to Idle. -/
theorem C1_amended_every_exit_reaches_idle (m0 : MaquinaEstadosNero)
    (env : TurnEnv) (h : env.transcricao ≠ "") :
    (turn m0 env).final.estado_atual = "DESCANSO" ∧
      ((turn m0 env).outcome = some ProcResult.success →
        "RESPONDENDO" ∈ (turn m0 env).trace) := by
  obtain ⟨t, d, sig⟩ := env
  simp only [ne_eq] at h
  cases d with
  | raises => simp [turn, estado_processando, estado_respondendo, h]
  | returns r =>
    by_cases hs : r.sucesso
    · by_cases ha : sig
      · simp [turn, estado_processando, estado_respondendo, h, hs, ha]
      · simp [turn, estado_processando, estado_respondendo, h, hs, ha]
    · simp [turn, estado_processando, estado_respondendo, h, hs]

/-- Witness for the amended C1 on the successful end-to-end turn of the
spec's scenario: transcript `"que horas sao"`, dispatch succeeds, signal
arrives. -/
theorem C1_amended_every_exit_reaches_idle_witness :
    ("que horas sao" : String) ≠ "" ∧
      (turn ⟨"DESCANSO"⟩
        ⟨"que horas sao", DispatchBehavior.returns ⟨"sao dez horas", true⟩, true⟩).final.estado_atual
        = "DESCANSO" ∧
      ((turn ⟨"DESCANSO"⟩
        ⟨"que horas sao", DispatchBehavior.returns ⟨"sao dez horas", true⟩, true⟩).outcome
          = some ProcResult.success →
        "RESPONDENDO" ∈ (turn ⟨"DESCANSO"⟩
          ⟨"que horas sao", DispatchBehavior.returns ⟨"sao dez horas", true⟩, true⟩).trace) :=
  ⟨by decide,
    C1_amended_every_exit_reaches_idle ⟨"DESCANSO"⟩
      ⟨"que horas sao", DispatchBehavior.returns ⟨"sao dez horas", true⟩, true⟩ (by decide)⟩

/-- Claim C4: a turn whose transcription step yields an empty transcript
makes zero calls to `agent.processar_prompt` and ends with the state machine
in `"DESCANSO"` (Idle). -/
theorem C4_empty_transcript_never_dispatches (m0 : MaquinaEstadosNero)
    (env : TurnEnv) (h : env.transcricao = "") :
    (turn m0 env).dispatchCalls = 0 ∧
      (turn m0 env).final.estado_atual = "DESCANSO" := by
  obtain ⟨t, d, sig⟩ := env
  simp only at h
  simp [turn, h]

/-- Witness for C4: empty transcript with a dispatch environment that would
succeed if it were ever consulted. -/
theorem C4_empty_transcript_never_dispatches_witness :
    (turn ⟨"DESCANSO"⟩ ⟨"", DispatchBehavior.returns ⟨"ok", true⟩, true⟩).dispatchCalls = 0 ∧
      (turn ⟨"DESCANSO"⟩ ⟨"", DispatchBehavior.returns ⟨"ok", true⟩, true⟩).final.estado_atual
        = "DESCANSO" :=
  C4_empty_transcript_never_dispatches ⟨"DESCANSO"⟩
    ⟨"", DispatchBehavior.returns ⟨"ok", true⟩, true⟩ rfl

/-- Claim C7: if the dispatch returns `sucesso = true` but the completion
signal never arrives within the 30 s wait, the turn's outcome is the
timeout classification — a constructor distinct from the reasoning-failure
classification — and the turn still ends with the state machine in Idle. -/
theorem C7_missing_signal_is_timeout_failure (m0 : MaquinaEstadosNero)
    (env : TurnEnv) (r : AgentResult) (h1 : env.transcricao ≠ "")
    (h2 : env.dispatch = DispatchBehavior.returns r) (h3 : r.sucesso = true)
    (h4 : env.signalArrives = false) :
    (turn m0 env).outcome = some ProcResult.ttsTimeout ∧
      ProcResult.ttsTimeout ≠ ProcResult.agentFailed ∧
      (turn m0 env).final.estado_atual = "DESCANSO" := by
  obtain ⟨t, d, sig⟩ := env
  simp only [ne_eq] at h1
  simp only at h2 h4
  subst h2 h4
  refine ⟨?_, by decide, ?_⟩ <;>
    simp [turn, estado_processando, estado_respondendo, h1, h3]

/-- Witness for C7: successful dispatch, signal never set. -/
theorem C7_missing_signal_is_timeout_failure_witness :
    (turn ⟨"DESCANSO"⟩
        ⟨"que horas sao", DispatchBehavior.returns ⟨"resposta", true⟩, false⟩).outcome
      = some ProcResult.ttsTimeout ∧
      ProcResult.ttsTimeout ≠ ProcResult.agentFailed ∧
      (turn ⟨"DESCANSO"⟩
        ⟨"que horas sao", DispatchBehavior.returns ⟨"resposta", true⟩, false⟩).final.estado_atual
        = "DESCANSO" :=
  C7_missing_signal_is_timeout_failure ⟨"DESCANSO"⟩
    ⟨"que horas sao", DispatchBehavior.returns ⟨"resposta", true⟩, false⟩
    ⟨"resposta", true⟩ (by decide) rfl rfl rfl

/-- Claim C8: a dispatch that returns `sucesso = false` is a normal terminal
value — the iteration still runs to completion (`continues = true`, nothing
propagates out of the orchestrator), the outcome is the reasoning-failure
classification, and the state machine ends in Idle. -/
theorem C8_agent_failure_is_not_fatal (m0 : MaquinaEstadosNero)
    (env : TurnEnv) (r : AgentResult) (h1 : env.transcricao ≠ "")
    (h2 : env.dispatch = DispatchBehavior.returns r) (h3 : r.sucesso = false) :
    (turn m0 env).outcome = some ProcResult.agentFailed ∧
      (turn m0 env).continues = true ∧
      (turn m0 env).final.estado_atual = "DESCANSO" := by
  obtain ⟨t, d, sig⟩ := env
  simp only [ne_eq] at h1
  simp only at h2
  subst h2
  refine ⟨?_, ?_, ?_⟩ <;>
    simp [turn, estado_processando, estado_respondendo, h1, h3]

/-- Witness for C8: dispatch reports failure; the turn continues normally
and ends in Idle. -/
theorem C8_agent_failure_is_not_fatal_witness :
    (turn ⟨"DESCANSO"⟩
        ⟨"que horas sao", DispatchBehavior.returns ⟨"", false⟩, true⟩).outcome
      = some ProcResult.agentFailed ∧
      (turn ⟨"DESCANSO"⟩
        ⟨"que horas sao", DispatchBehavior.returns ⟨"", false⟩, true⟩).continues = true ∧
      (turn ⟨"DESCANSO"⟩
        ⟨"que horas sao", DispatchBehavior.returns ⟨"", false⟩, true⟩).final.estado_atual
        = "DESCANSO" :=
  C8_agent_failure_is_not_fatal ⟨"DESCANSO"⟩
    ⟨"que horas sao", DispatchBehavior.returns ⟨"", false⟩, true⟩
    ⟨"", false⟩ (by decide) rfl rfl

/-! Recording phase (`NeroAssistant.estado_gravando`, nero_assistant.py 213-251)

The method opens the microphone and performs a single
`r.listen(source, timeout=self.recording_timeout, phrase_time_limit=60)`
call (`recording_timeout = 600`), then transcribes the captured audio with
the strong STT service; it starts no background stop-word listener ("For
simplicity, record audio for a fixed duration" — the method never calls
`stt_fraco.aguardar_palavra_parada`). We record the external calls the
method makes as an action trace. -/

/-- Outcome of the single `r.listen(...)` call inside `estado_gravando`. -/
inductive ListenResult
  | captured (audio : List Nat)  -- listen returned AudioData (raw bytes)
  | waitTimeout                  -- `sr.WaitTimeoutError`: no speech started in time
  | deviceError                  -- any other exception during capture
deriving DecidableEq, Repr

/-- Whether the listen call returned captured audio. -/
def ListenResult.isCaptured : ListenResult → Bool
  | ListenResult.captured _ => true
  | _ => false

/-- Environment of one `estado_gravando` run: what the microphone yields and
what `STTForte.transcrever_audio_file` returns for it (the transcription
contract is "always returns, possibly empty", and the method's own `except`
clauses turn any residual failure into `""`). -/
structure GravEnv where
  listen : ListenResult
  transcrever : String
deriving DecidableEq, Repr

/-- External calls `estado_gravando` can make, as observable actions. The
`startStopListener` action (a call to `stt_fraco.aguardar_palavra_parada`)
is included so that its absence from every trace is a statement about the
method, not an artefact of the action alphabet. -/
inductive GravAction
  | startStopListener
  | micListen (timeout phrase_time_limit : Nat)
  | transcrever
deriving DecidableEq, Repr

/-- Embedding of `NeroAssistant.estado_gravando` (nero_assistant.py 213-251), returning
the transcript it produces together with the trace of external calls made:
one bounded microphone listen (timeout 600 s, phrase_time_limit 60 s), then
— only when audio was captured — one transcription call. Timeout and device
errors are caught and yield `""`. -/
def estado_gravando (env : GravEnv) : String × List GravAction :=
  match env.listen with
  | ListenResult.captured _ =>
      (env.transcrever, [GravAction.micListen 600 60, GravAction.transcrever])
  | ListenResult.waitTimeout =>
      ("", [GravAction.micListen 600 60])
  | ListenResult.deviceError =>
      ("", [GravAction.micListen 600 60])

/-- A concrete recording turn (audio captured and transcribed) during which
`estado_gravando` never starts the stop-word Background Listener: the claim
that every turn starts it concurrently with capture is false on the code. -/
theorem C5_counterexample :
    GravAction.startStopListener ∉
      (estado_gravando ⟨ListenResult.captured [1, 2, 3], "que horas sao"⟩).2 ∧
      (estado_gravando ⟨ListenResult.captured [1, 2, 3], "que horas sao"⟩).1
        = "que horas sao" := by
  constructor
  · decide
  · rfl

/-- Claim C5 (amended): during the Recording phase the orchestrator never
starts the stop-word Background Listener; it performs exactly one bounded
microphone listen (timeout = 600 s recording limit, phrase_time_limit =
60 s), capture ends with that call (phrase end/limit, wait timeout, or
device error), and transcription is attempted exactly when audio was
captured. -/
theorem C5_amended_no_stop_listener_started (env : GravEnv) :
    GravAction.startStopListener ∉ (estado_gravando env).2 ∧
      (estado_gravando env).2.head? = some (GravAction.micListen 600 60) ∧
      (GravAction.transcrever ∈ (estado_gravando env).2 ↔
        env.listen.isCaptured = true) := by
  obtain ⟨l, tx⟩ := env
  cases l <;> simp [estado_gravando, ListenResult.isCaptured]

/-! Completion Signal (`asyncio.Event`, used as `NeroAssistant.recording_complete`)

Model of Python's `asyncio.Event`, the type of the Completion Signal
`self.recording_complete` (nero_assistant.py 129): a Boolean flag.
`set()` makes the flag true, wakes all waiters and never raises (it is a
total operation on the flag state); `clear()` makes it false; `wait()`
returns `True` immediately, without suspending, when the flag is already
set. -/

/-- The observable state of an `asyncio.Event`: its internal flag. -/
structure AsyncioEvent where
  is_set : Bool
deriving DecidableEq, Repr

/-- Python `Event.set()`: sets the flag; total, so a second call raises nothing. -/
def AsyncioEvent.set (_ : AsyncioEvent) : AsyncioEvent := ⟨true⟩

/-- Python `Event.clear()`: resets the flag to pending. -/
def AsyncioEvent.clear (_ : AsyncioEvent) : AsyncioEvent := ⟨false⟩

/-- Python `Event.wait()` returns immediately (with `True`) exactly when the flag
is already set. -/
def AsyncioEvent.waitReturnsImmediately (e : AsyncioEvent) : Bool := e.is_set

/-- The signal operation of the Completion Signal:
`NeroAssistant._on_agent_response` (nero_assistant.py 136-148) ends by
calling `self.recording_complete.set()`; its effect on the flag is
`AsyncioEvent.set`. -/
def on_agent_response_signal (e : AsyncioEvent) : AsyncioEvent :=
  AsyncioEvent.set e

/-- Claim C6: signalling twice before any await leaves the Completion Signal
in the same observable state as signalling once (and the second call, being
a total function of the flag, raises no error), and an await after the
double signal returns true immediately. -/
theorem C6_signal_idempotent (e : AsyncioEvent) :
    on_agent_response_signal (on_agent_response_signal e)
        = on_agent_response_signal e ∧
      (on_agent_response_signal (on_agent_response_signal e)).waitReturnsImmediately
        = true := by
  exact ⟨rfl, rfl⟩

/-- Witness for C6 at the pending flag (the state `recording_complete.clear()`
leaves before dispatch). -/
theorem C6_signal_idempotent_witness :
    on_agent_response_signal (on_agent_response_signal ⟨false⟩)
        = on_agent_response_signal ⟨false⟩ ∧
      (on_agent_response_signal (on_agent_response_signal ⟨false⟩)).waitReturnsImmediately
        = true :=
  C6_signal_idempotent ⟨false⟩

/-! Stop-word Background Listener (`STTFraco.aguardar_palavra_parada`,
stt_fraco.py 190-299)

The thread body `_listen_for_stop` loops: at the loop head it checks the
overall deadline (on expiry it enqueues `{"detected": False, "reason":
"timeout"}` and returns); otherwise it listens for one short segment and
tries to recognise it. A `WaitTimeoutError`, an unrecognised segment, or
any other in-loop error makes the loop continue. On a stop-word match it
enqueues `{"detected": True, "palavra": w}` *before* invoking the caller's
callback; an exception raised by the callback is not matched by the inner
`except sr.UnknownValueError / sr.RequestError` clauses and is caught by the
generic `except Exception: continue` handler of the listen loop (stt_fraco.py
274-276), so the loop continues instead of returning. A failure before the
loop (microphone acquisition) is caught by the outer handler, which enqueues
`{"detected": False, "reason": "error"}`.

The executions before the deadline are modelled as a finite script of
attempt outcomes; an exhausted script is the loop-head deadline check
firing. -/

/-- One event of the detection queue: the dicts put by `_listen_for_stop`
(`palavra`/`reason` are `""` when the corresponding key is absent). -/
structure StopEvent where
  detected : Bool
  palavra : String
  reason : String
deriving DecidableEq, Repr

/-- Outcome of one listen-and-recognise attempt of the stop-word loop. -/
inductive StopAttempt
  | waitTimeout              -- no speech within the 5 s attempt: continue
  | unknown                  -- speech present but not recognised: continue
  | heard (texto : String)   -- recognised text, matched against the stop words
  | attemptError             -- any other in-attempt error: continue
deriving DecidableEq, Repr

/-- Python `texto.upper().strip()` on the recognised text (ASCII uppercase,
whitespace stripped at both ends), as a character list. -/
def pyUpperStrip (s : String) : List Char :=
  (((s.data.map Char.toUpper).dropWhile Char.isWhitespace).reverse.dropWhile
      Char.isWhitespace).reverse

/-- The `for stop_word in stop_words: if stop_word.upper() in texto_upper:`
loop: the first stop word (in list order) contained in the normalised
text. -/
def matchStopWord (stop_words : List String) (texto : String) : Option String :=
  stop_words.find? (fun w => decide ((w.data.map Char.toUpper) <:+: pyUpperStrip texto))

/-- The while-loop of `_listen_for_stop` over a script of attempt outcomes,
returning the events enqueued on the detection queue in order. An exhausted
script is the loop-head deadline check: the timeout event is enqueued and
the thread returns. On a match the detected event is enqueued and then the
callback runs: if it raises, the generic in-loop handler catches it and the
loop continues; otherwise the thread returns. -/
def listenLoop (stop_words : List String) (cbRaises : Bool) :
    List StopAttempt → List StopEvent
  | [] => [⟨false, "", "timeout"⟩]
  | a :: rest =>
    match a with
    | StopAttempt.waitTimeout => listenLoop stop_words cbRaises rest
    | StopAttempt.unknown => listenLoop stop_words cbRaises rest
    | StopAttempt.attemptError => listenLoop stop_words cbRaises rest
    | StopAttempt.heard texto =>
      match matchStopWord stop_words texto with
      | some w =>
          ⟨true, w, ""⟩ :: (if cbRaises then listenLoop stop_words cbRaises rest else [])
      | none => listenLoop stop_words cbRaises rest

/-- Embedding of `STTFraco.aguardar_palavra_parada` (stt_fraco.py 190-288): the queue is
re-created fresh for each invocation, so the events of one invocation are
exactly what its thread enqueues. A failure acquiring the microphone (or
any failure before the loop) is caught by the outer handler and enqueues the
single error event. -/
def aguardar_palavra_parada (stop_words : List String) (cbRaises : Bool)
    (micFails : Bool) (script : List StopAttempt) : List StopEvent :=
  if micFails then [⟨false, "", "error"⟩]
  else listenLoop stop_words cbRaises script

/-- Embedding of `STTFraco.verificar_palavra_parada_detectada` (stt_fraco.py 290-299):
non-blocking poll of the detection queue — the head event is removed and
returned, `none` on an empty queue. -/
def verificar_palavra_parada_detectada (q : List StopEvent) :
    Option StopEvent × List StopEvent :=
  match q with
  | [] => (none, [])
  | e :: rest => (some e, rest)

/-- An invocation whose callback raises enqueues two terminal events: the
stop words of the assistant, a recognised `"NERO ENVIAR"` followed by the
deadline, yield a detected event and then a timeout event on the same
queue — the claim's "at most one terminal event per invocation" is false on
this concrete execution. -/
theorem C9_counterexample :
    (aguardar_palavra_parada ["NERO ENVIAR", "ENVIAR", "ENVIAR NERO"] true false
        [StopAttempt.heard "NERO ENVIAR"]).length = 2 := by
  decide

theorem listenLoop_length_no_raise (stop_words : List String)
    (script : List StopAttempt) :
    (listenLoop stop_words false script).length ≤ 1 := by
  induction script with
  | nil => simp [listenLoop]
  | cons a rest ih =>
    cases a with
    | waitTimeout => simpa only [listenLoop] using ih
    | unknown => simpa only [listenLoop] using ih
    | attemptError => simpa only [listenLoop] using ih
    | heard texto =>
      simp only [listenLoop]
      cases h : matchStopWord stop_words texto with
      | some w => simp [h]
      | none => exact ih

/-- Claim C9 (amended): provided the consumer's callback does not raise, an
invocation of the stop-word listener enqueues at most one terminal event
before its loop exits, and the non-blocking poll delivers each enqueued
event at most once — it returns the event exactly once (leaving the queue
empty) and `none` on every poll of an empty queue. When the callback
raises after a detection, the loop continues and can enqueue a second
event. -/
theorem C9_amended_single_event_single_delivery (stop_words : List String)
    (micFails : Bool) (script : List StopAttempt) (e : StopEvent) :
    (aguardar_palavra_parada stop_words false micFails script).length ≤ 1 ∧
      verificar_palavra_parada_detectada [e] = (some e, []) ∧
      verificar_palavra_parada_detectada [] = (none, []) := by
  refine ⟨?_, rfl, rfl⟩
  unfold aguardar_palavra_parada
  by_cases hm : micFails
  · simp [hm]
  · simpa [hm] using listenLoop_length_no_raise stop_words script

/-! TTS summary (`AgentHandler._gerar_resumo_tts`, agent_handler.py 203-234)

Text is modelled as a character list. `truncado.rfind(" ")` is the highest
index of a space in the prefix, `-1` when there is none. The Python guard
`last_space > max_chars * 0.8` computes `200 * 0.8 == 160.0` exactly in IEEE
double arithmetic, and an `int > 160.0` comparison holds exactly for
integers `≥ 161`, i.e. `160 < last_space`. -/

/-- Accumulator pass for `str.rfind(" ")`: `i` is the index of the head of
the remaining list, `best` the best index found so far (initially `-1`). -/
def rfind_space_aux : List Char → Int → Int → Int
  | [], _, best => best
  | c :: rest, i, best =>
      rfind_space_aux rest (i + 1) (if c = ' ' then i else best)

/-- Python `l.rfind(" ")`: the largest index holding a space, `-1` if none. -/
def rfind_space (l : List Char) : Int := rfind_space_aux l 0 (-1)

/-- Embedding of `AgentHandler._gerar_resumo_tts` (agent_handler.py 203-234): empty text
is returned as is; text of at most 200 characters is returned unchanged;
longer text is cut to 200 characters, pulled back to the last space when
that space lies in the final 20% of the cut, and suffixed with `"..."`
whenever characters were dropped (always, for text longer than 200). -/
def gerar_resumo_tts (texto : List Char) : List Char :=
  if texto = [] then []
  else if texto.length ≤ 200 then texto
  else
    let truncado := texto.take 200
    let last_space := rfind_space truncado
    let truncado2 :=
      if 160 < last_space then truncado.take last_space.toNat else truncado
    if truncado2.length < texto.length then truncado2 ++ ['.', '.', '.']
    else truncado2

theorem rfind_space_aux_lt (l : List Char) : ∀ i best : Int, best < i →
    rfind_space_aux l i best < i + l.length := by
  induction l with
  | nil => intro i best h; simpa [rfind_space_aux] using h
  | cons c rest ih =>
    intro i best h
    have h2 : (if c = ' ' then i else best) < i + 1 := by
      by_cases hc : c = ' '
      · simp only [hc, if_pos]; omega
      · rw [if_neg hc]; omega
    have h3 := ih (i + 1) (if c = ' ' then i else best) h2
    simp only [rfind_space_aux, List.length_cons]
    push_cast
    push_cast at h3
    omega

theorem rfind_space_lt (l : List Char) : rfind_space l < l.length := by
  have := rfind_space_aux_lt l 0 (-1) (by omega)
  simpa [rfind_space] using this

/-- Claim C10: `_gerar_resumo_tts` returns the empty string on empty input,
returns text of length at most 200 unchanged, and on longer text returns a
prefix of the input followed by `"..."`, of total length at most 203. -/
theorem C10_tts_summary (texto : List Char) :
    (texto = [] → gerar_resumo_tts texto = []) ∧
      (texto.length ≤ 200 → gerar_resumo_tts texto = texto) ∧
      (200 < texto.length →
        (gerar_resumo_tts texto).length ≤ 203 ∧
          ∃ p, p <+: texto ∧ gerar_resumo_tts texto = p ++ ['.', '.', '.']) := by
  refine ⟨?_, ?_, ?_⟩
  · intro h; simp [gerar_resumo_tts, h]
  · intro h
    by_cases he : texto = []
    · simp [gerar_resumo_tts, he]
    · simp [gerar_resumo_tts, he, h]
  · intro h
    have he : texto ≠ [] := by
      intro hh; rw [hh] at h; simp at h
    have hlen : ¬ texto.length ≤ 200 := by omega
    have htake : (texto.take 200).length = 200 := by
      rw [List.length_take]; omega
    have hspace : rfind_space (texto.take 200) < 200 := by
      have := rfind_space_lt (texto.take 200)
      rw [htake] at this
      exact_mod_cast this
    rw [gerar_resumo_tts]
    simp only [he, if_false, hlen]
    by_cases hs : 160 < rfind_space (texto.take 200)
    · have hn : (rfind_space (texto.take 200)).toNat < 200 := by omega
      have hlt : ((texto.take 200).take
          (rfind_space (texto.take 200)).toNat).length < texto.length := by
        rw [List.length_take, htake]; omega
      simp only [hs, if_true, hlt]
      constructor
      · rw [List.length_append, List.length_take, htake]
        simp only [List.length_cons, List.length_nil]
        omega
      · refine ⟨(texto.take 200).take (rfind_space (texto.take 200)).toNat, ?_, rfl⟩
        rw [List.take_take]
        exact List.take_prefix _ texto
    · have hlt : (texto.take 200).length < texto.length := by omega
      simp only [hs, if_false, hlt, if_true]
      constructor
      · rw [List.length_append, htake]
        simp only [List.length_cons, List.length_nil]
        omega
      · exact ⟨texto.take 200, List.take_prefix _ texto, rfl⟩

/-- Witness for C10 on a concrete 201-character input: the summary is a
prefix plus `"..."` of length at most 203. -/
theorem C10_tts_summary_witness :
    200 < (List.replicate 201 'a').length ∧
      (gerar_resumo_tts (List.replicate 201 'a')).length ≤ 203 ∧
      ∃ p, p <+: List.replicate 201 'a' ∧
        gerar_resumo_tts (List.replicate 201 'a') = p ++ ['.', '.', '.'] := by
  have h : 200 < (List.replicate 201 'a').length := by
    rw [List.length_replicate]
    omega
  exact ⟨h, ((C10_tts_summary (List.replicate 201 'a')).2.2 h).1,
    ((C10_tts_summary (List.replicate 201 'a')).2.2 h).2⟩

end Nero
